import Mathlib

/-!
Verification of the Data Warehouse Go client (package `client`).

The development shallowly embeds the repository's code:

* `client.go` — `Client`, `New`, the transport primitives `Client.get` and
  `Client.post`;
* `models.go` — the entity and envelope record types;
* the article / podcast / health operation wrappers.

Go's `encoding/json` behaviour on the concrete struct shapes used by the
client is modelled by explicit decoder functions on a JSON value tree.
Machine-level aspects that the code does not observe (HTTP sockets,
`io.Reader` streaming, RFC3339 validation inside `time.Time` parsing,
case-insensitive JSON key fall-back) are modelled abstractly and noted at
their definitions.
-/

/-- JSON values.  `num` carries an integer: every numeric field of the
client's models has Go type `int`, and the bodies exercised here contain
integral numbers only. -/
inductive Json where
  | null
  | bool (b : Bool)
  | num (n : Int)
  | str (s : String)
  | arr (elems : List Json)
  | obj (fields : List (String × Json))

/-- Escape a string for inclusion in rendered JSON (quote and backslash). -/
def jsonEscape (s : String) : String :=
  s.foldl
    (fun acc c =>
      if c = '\\' then acc ++ "\\\\"
      else if c = '"' then acc ++ "\\\""
      else acc.push c) ""

mutual

/-- Serialize a JSON value; models `json.Marshal` on the values the client
sends (marshalling a well-formed value never fails, matching the code's
unreachable `SerializationError` branch). -/
def Json.render : Json → String
  | .null => "null"
  | .bool true => "true"
  | .bool false => "false"
  | .num n => toString n
  | .str s => "\"" ++ jsonEscape s ++ "\""
  | .arr es => "[" ++ Json.renderElems es ++ "]"
  | .obj fs => "\x7b" ++ Json.renderFields fs ++ "\x7d"

def Json.renderElems : List Json → String
  | [] => ""
  | [e] => Json.render e
  | e :: es => Json.render e ++ "," ++ Json.renderElems es

def Json.renderFields : List (String × Json) → String
  | [] => ""
  | [(k, v)] => "\"" ++ jsonEscape k ++ "\":" ++ Json.render v
  | (k, v) :: fs => "\"" ++ jsonEscape k ++ "\":" ++ Json.render v ++ "," ++ Json.renderFields fs

end

/-- Go `error` values as this package builds them: `errors.New` /
terminal `fmt.Errorf` messages, the status-code error of `client.go`
lines 102 and 146, errors produced by `encoding/json`, and
`fmt.Errorf("<context>: %w", err)` wrapping. -/
inductive GoError where
  | msg (m : String)
  | unexpectedStatus (code : Nat) (body : String)
  | jsonError (m : String)
  | wrap (ctx : String) (e : GoError)
deriving DecidableEq

/-- The text produced by `err.Error()` in Go for each of the error shapes
above, following the `fmt.Errorf` format strings in the source. -/
def GoError.message : GoError → String
  | .msg m => m
  | .unexpectedStatus code body =>
      "unexpected status code: " ++ toString code ++ ", body: " ++ body
  | .jsonError m => m
  | .wrap ctx e => ctx ++ ": " ++ e.message

/-- A response body as handed to `json.Unmarshal`: either text that parses
to a JSON value (carried as its tree) or text that is not valid JSON. -/
inductive Body where
  | wellFormed (j : Json)
  | malformed (raw : String)

/-- The raw text of a body, as `string(body)` reads it in the source. -/
def Body.raw : Body → String
  | .wellFormed j => j.render
  | .malformed s => s

/-- An outgoing HTTP request as `Client.get` / `Client.post` build it:
method, absolute URL, the headers set via `req.Header.Set` (in the order
the source sets them), and the optional body. -/
structure HttpRequest where
  method : String
  url : String
  headers : List (String × String)
  body : Option String

/-- An HTTP response as the client observes it: status code and the bytes
`io.ReadAll(res.Body)` yields (reading the in-memory body never fails). -/
structure HttpResponse where
  statusCode : Nat
  body : Body

/-- The underlying HTTP transport (`c.client.Do`): maps a request to a
response or to a transport-level error. -/
abbrev Transport := HttpRequest → Except GoError HttpResponse

/-- The `Client` struct of `client.go`.  The Go struct also holds a
default-configured `*http.Client`; that transport performs the actual I/O
and is modelled by the `Transport` argument passed to each call. -/
structure Client where
  url : String
  apiKey : String

/-- `New` from `client.go`: rejects an empty url or api key with the
`errors.New` messages of lines 57 and 61, otherwise returns a client
holding exactly the given url and api key.  It performs no I/O (the model
takes no transport). -/
def New (url apiKey : String) : Except GoError Client :=
  if url = "" then .error (.msg "url is empty")
  else if apiKey = "" then .error (.msg "apiKey is empty")
  else .ok { url := url, apiKey := apiKey }

/-- The GET request `Client.get` builds: URL by plain concatenation
(`fmt.Sprintf("%s%s", c.url, endpoint)`), the two headers of lines 87–88,
no body.  (`http.NewRequest` cannot fail here in the model.) -/
def Client.getRequest (c : Client) (endpoint : String) : HttpRequest :=
  { method := "GET"
    url := c.url ++ endpoint
    headers := [("Content-Type", "application/json"),
                ("Authorization", "Bearer " ++ c.apiKey)]
    body := none }

/-- The POST request `Client.post` builds: same URL construction and
headers, body exactly `json.Marshal(data)`. -/
def Client.postRequest (c : Client) (endpoint : String) (data : Json) : HttpRequest :=
  { method := "POST"
    url := c.url ++ endpoint
    headers := [("Content-Type", "application/json"),
                ("Authorization", "Bearer " ++ c.apiKey)]
    body := some data.render }

/-- Response handling of `Client.get` (lines 90–105): a transport error is
returned unchanged; a status other than 200 becomes the
`unexpected status code` error carrying the code and raw body text;
otherwise the body bytes are returned. -/
def Client.handleGetResponse : Except GoError HttpResponse → Except GoError Body
  | .error e => .error e
  | .ok res =>
      if res.statusCode ≠ 200 then
        .error (.unexpectedStatus res.statusCode res.body.raw)
      else .ok res.body

/-- Response handling of `Client.post` (lines 134–149): identical to the
GET case except that a transport error is wrapped as
`fmt.Errorf("error sending request: %w", err)`. -/
def Client.handlePostResponse : Except GoError HttpResponse → Except GoError Body
  | .error e => .error (.wrap "error sending request" e)
  | .ok res =>
      if res.statusCode ≠ 200 then
        .error (.unexpectedStatus res.statusCode res.body.raw)
      else .ok res.body

/-- `Client.get` of `client.go`. -/
def Client.get (c : Client) (t : Transport) (endpoint : String) : Except GoError Body :=
  Client.handleGetResponse (t (c.getRequest endpoint))

/-- `Client.post` of `client.go`.  The payload is taken as its JSON value;
`json.Marshal` on it is total (`Json.render`), so the marshalling error
branch of line 122 does not arise. -/
def Client.post (c : Client) (t : Transport) (endpoint : String) (data : Json) : Except GoError Body :=
  Client.handlePostResponse (t (c.postRequest endpoint data))

/-- Go `time.Time` as the client observes it: the RFC3339 text the field
was decoded from.  `time.Time.UnmarshalJSON` additionally validates the
RFC3339 format; the bodies exercised here never carry an invalid one, so
the model stores the raw string. -/
structure GoTime where
  raw : String
deriving DecidableEq

/-- The zero `time.Time`, the value a struct field keeps when its JSON key
is absent or null. -/
def GoTime.zero : GoTime := ⟨""⟩

/-- A Go slice, distinguishing the nil slice (`none`) from a non-nil
slice (`some xs`), as `encoding/json` does. -/
abbrev GoSlice (α : Type) := Option (List α)

/-- `Article` of `models.go` (field order and JSON keys as in the source). -/
structure Article where
  id : String
  title : String
  description : String
  url : String
  tags : GoSlice String
  createdAt : GoTime
  updatedAt : GoTime
deriving DecidableEq

/-- `Podcast` of `models.go` — identical shape to `Article`. -/
structure Podcast where
  id : String
  title : String
  description : String
  url : String
  tags : GoSlice String
  createdAt : GoTime
  updatedAt : GoTime
deriving DecidableEq

/-- `CreateArticleRequest` of `models.go`. -/
structure CreateArticleRequest where
  title : String
  description : String
  url : String
  tags : GoSlice String

/-- `CreatePodcastRequest` of `models.go`. -/
structure CreatePodcastRequest where
  title : String
  description : String
  url : String
  tags : GoSlice String

/-- `json.Marshal` on `CreateArticleRequest` per its struct tags:
`description` and `tags` carry `omitempty` (a string is empty when `""`,
a slice when nil or of length zero). -/
def CreateArticleRequest.marshal (r : CreateArticleRequest) : Json :=
  .obj ([("title", .str r.title)]
    ++ (if r.description = "" then [] else [("description", .str r.description)])
    ++ [("url", .str r.url)]
    ++ (match r.tags with
        | none => []
        | some [] => []
        | some ts => [("tags", .arr (ts.map Json.str))]))

/-- `json.Marshal` on `CreatePodcastRequest` — same struct tags. -/
def CreatePodcastRequest.marshal (r : CreatePodcastRequest) : Json :=
  .obj ([("title", .str r.title)]
    ++ (if r.description = "" then [] else [("description", .str r.description)])
    ++ [("url", .str r.url)]
    ++ (match r.tags with
        | none => []
        | some [] => []
        | some ts => [("tags", .arr (ts.map Json.str))]))

/-- `ArticleResponse` of `models.go`: `*Article` under key `article`
(`none` is the nil pointer). -/
structure ArticleResponse where
  article : Option Article
deriving DecidableEq

/-- `PodcastResponse` of `models.go`. -/
structure PodcastResponse where
  podcast : Option Podcast
deriving DecidableEq

/-- `ArticlesResponse` of `models.go`: `[]Article` under key `articles`. -/
structure ArticlesResponse where
  articles : GoSlice Article
deriving DecidableEq

/-- `PodcastsResponse` of `models.go`. -/
structure PodcastsResponse where
  podcasts : GoSlice Podcast
deriving DecidableEq

/-- `PaginatedArticlesResponse` of `models.go`. -/
structure PaginatedArticlesResponse where
  articles : GoSlice Article
  total : Int
  page : Int
  limit : Int
deriving DecidableEq

/-- `PaginatedPodcastsResponse` of `models.go`. -/
structure PaginatedPodcastsResponse where
  podcasts : GoSlice Podcast
  total : Int
  page : Int
  limit : Int
deriving DecidableEq

/-- `HealthResponse` of `models.go`. -/
structure HealthResponse where
  status : String
  database : String
  timestamp : GoTime
deriving DecidableEq

/-- Look a key up among the fields of a JSON object; with duplicate keys
the last occurrence wins, as `encoding/json` overwrites sequentially. -/
def lookupField (fs : List (String × Json)) (key : String) : Option Json :=
  match fs with
  | [] => none
  | (k, v) :: rest =>
      match lookupField rest key with
      | some r => some r
      | none => if k = key then some v else none

/-- Decode one struct field: an absent key keeps the zero value, a present
key runs the element decoder.  (Go also matches keys case-insensitively
as a fall-back; the bodies here use exact keys.) -/
def decodeField {α : Type} (fs : List (String × Json)) (key : String)
    (dec : Json → Except String α) (zero : α) : Except String α :=
  match lookupField fs key with
  | none => .ok zero
  | some v => dec v

/-- Decode a JSON value into a Go `string` field: JSON null leaves the
zero value in place. -/
def decodeString : Json → Except String String
  | .str s => .ok s
  | .null => .ok ""
  | _ => .error "cannot unmarshal value into Go string"

/-- Decode a JSON value into a Go `int` field. -/
def decodeInt : Json → Except String Int
  | .num n => .ok n
  | .null => .ok 0
  | _ => .error "cannot unmarshal value into Go int"

/-- Decode a JSON value into a `time.Time` field (see `GoTime`). -/
def decodeTime : Json → Except String GoTime
  | .str s => .ok ⟨s⟩
  | .null => .ok GoTime.zero
  | _ => .error "cannot unmarshal value into Go time.Time"

/-- Decode a JSON value into a `[]string` field: null gives the nil
slice, an array gives a non-nil slice (empty for `[]`). -/
def decodeStringList : Json → Except String (GoSlice String)
  | .null => .ok none
  | .arr es => (es.mapM decodeString).map some
  | _ => .error "cannot unmarshal value into Go slice of string"

/-- Decode a JSON object into an `Article` (non-object input fails, as
`json.Unmarshal` rejects it for a struct target). -/
def decodeArticle : Json → Except String Article
  | .obj fs => do
      let id ← decodeField fs "id" decodeString ""
      let title ← decodeField fs "title" decodeString ""
      let description ← decodeField fs "description" decodeString ""
      let url ← decodeField fs "url" decodeString ""
      let tags ← decodeField fs "tags" decodeStringList none
      let createdAt ← decodeField fs "created_at" decodeTime GoTime.zero
      let updatedAt ← decodeField fs "updated_at" decodeTime GoTime.zero
      pure ⟨id, title, description, url, tags, createdAt, updatedAt⟩
  | _ => .error "cannot unmarshal value into Go struct Article"

/-- Decode a JSON object into a `Podcast`. -/
def decodePodcast : Json → Except String Podcast
  | .obj fs => do
      let id ← decodeField fs "id" decodeString ""
      let title ← decodeField fs "title" decodeString ""
      let description ← decodeField fs "description" decodeString ""
      let url ← decodeField fs "url" decodeString ""
      let tags ← decodeField fs "tags" decodeStringList none
      let createdAt ← decodeField fs "created_at" decodeTime GoTime.zero
      let updatedAt ← decodeField fs "updated_at" decodeTime GoTime.zero
      pure ⟨id, title, description, url, tags, createdAt, updatedAt⟩
  | _ => .error "cannot unmarshal value into Go struct Podcast"

/-- Decode into a `*Article` field: JSON null sets the nil pointer. -/
def decodeArticlePtr : Json → Except String (Option Article)
  | .null => .ok none
  | j => (decodeArticle j).map some

/-- Decode into a `*Podcast` field. -/
def decodePodcastPtr : Json → Except String (Option Podcast)
  | .null => .ok none
  | j => (decodePodcast j).map some

/-- Decode into a `[]Article` field. -/
def decodeArticleList : Json → Except String (GoSlice Article)
  | .null => .ok none
  | .arr es => (es.mapM decodeArticle).map some
  | _ => .error "cannot unmarshal value into Go slice of Article"

/-- Decode into a `[]Podcast` field. -/
def decodePodcastList : Json → Except String (GoSlice Podcast)
  | .null => .ok none
  | .arr es => (es.mapM decodePodcast).map some
  | _ => .error "cannot unmarshal value into Go slice of Podcast"

/-- Decode a JSON value into an `ArticleResponse`: absent `article` key
leaves the nil pointer; top-level null is a no-op on the zero struct. -/
def decodeArticleResponse : Json → Except String ArticleResponse
  | .obj fs => (decodeField fs "article" decodeArticlePtr none).map ArticleResponse.mk
  | .null => .ok ⟨none⟩
  | _ => .error "cannot unmarshal value into Go struct ArticleResponse"

/-- Decode a JSON value into a `PodcastResponse`. -/
def decodePodcastResponse : Json → Except String PodcastResponse
  | .obj fs => (decodeField fs "podcast" decodePodcastPtr none).map PodcastResponse.mk
  | .null => .ok ⟨none⟩
  | _ => .error "cannot unmarshal value into Go struct PodcastResponse"

/-- Decode a JSON value into an `ArticlesResponse`. -/
def decodeArticlesResponse : Json → Except String ArticlesResponse
  | .obj fs => (decodeField fs "articles" decodeArticleList none).map ArticlesResponse.mk
  | .null => .ok ⟨none⟩
  | _ => .error "cannot unmarshal value into Go struct ArticlesResponse"

/-- Decode a JSON value into a `PodcastsResponse`. -/
def decodePodcastsResponse : Json → Except String PodcastsResponse
  | .obj fs => (decodeField fs "podcasts" decodePodcastList none).map PodcastsResponse.mk
  | .null => .ok ⟨none⟩
  | _ => .error "cannot unmarshal value into Go struct PodcastsResponse"

/-- Decode a JSON value into a `PaginatedArticlesResponse`. -/
def decodePaginatedArticlesResponse : Json → Except String PaginatedArticlesResponse
  | .obj fs => do
      let articles ← decodeField fs "articles" decodeArticleList none
      let total ← decodeField fs "total" decodeInt 0
      let page ← decodeField fs "page" decodeInt 0
      let limit ← decodeField fs "limit" decodeInt 0
      pure ⟨articles, total, page, limit⟩
  | .null => .ok ⟨none, 0, 0, 0⟩
  | _ => .error "cannot unmarshal value into Go struct PaginatedArticlesResponse"

/-- Decode a JSON value into a `PaginatedPodcastsResponse`. -/
def decodePaginatedPodcastsResponse : Json → Except String PaginatedPodcastsResponse
  | .obj fs => do
      let podcasts ← decodeField fs "podcasts" decodePodcastList none
      let total ← decodeField fs "total" decodeInt 0
      let page ← decodeField fs "page" decodeInt 0
      let limit ← decodeField fs "limit" decodeInt 0
      pure ⟨podcasts, total, page, limit⟩
  | .null => .ok ⟨none, 0, 0, 0⟩
  | _ => .error "cannot unmarshal value into Go struct PaginatedPodcastsResponse"

/-- Decode a JSON value into a `HealthResponse`. -/
def decodeHealthResponse : Json → Except String HealthResponse
  | .obj fs => do
      let status ← decodeField fs "status" decodeString ""
      let database ← decodeField fs "database" decodeString ""
      let timestamp ← decodeField fs "timestamp" decodeTime GoTime.zero
      pure ⟨status, database, timestamp⟩
  | .null => .ok ⟨"", "", GoTime.zero⟩
  | _ => .error "cannot unmarshal value into Go struct HealthResponse"

/-- `json.Unmarshal(body, &target)`: text that is not valid JSON fails
with a syntax error; otherwise the typed decoder runs on the value.
Either failure surfaces as a `GoError.jsonError`. -/
def unmarshal {α : Type} (dec : Json → Except String α) : Body → Except GoError α
  | .wellFormed j =>
      match dec j with
      | .ok a => .ok a
      | .error m => .error (.jsonError m)
  | .malformed s => .error (.jsonError ("invalid character in input: " ++ s))

/-- `createArticleEndpoint` of the article wrappers. -/
def createArticleEndpoint : String := "/api/v1/articles"

/-- `getArticleEndpoint` applied to an id:
`fmt.Sprintf("/api/v1/articles/%s", id)`. -/
def getArticleEndpoint (id : String) : String := "/api/v1/articles/" ++ id

/-- `searchArticlesEndpoint` applied to a tag:
`fmt.Sprintf("/api/v1/articles/search/%s", tag)`. -/
def searchArticlesEndpoint (tag : String) : String := "/api/v1/articles/search/" ++ tag

/-- `searchArticlesPaginatedEndpoint` applied to a tag. -/
def searchArticlesPaginatedEndpoint (tag : String) : String :=
  "/api/v1/articles/search/" ++ tag ++ "/paginated"

/-- `createPodcastEndpoint` of the podcast wrappers. -/
def createPodcastEndpoint : String := "/api/v1/podcasts"

/-- `getPodcastEndpoint` applied to an id. -/
def getPodcastEndpoint (id : String) : String := "/api/v1/podcasts/" ++ id

/-- `searchPodcastsEndpoint` applied to a tag. -/
def searchPodcastsEndpoint (tag : String) : String := "/api/v1/podcasts/search/" ++ tag

/-- `searchPodcastsPaginatedEndpoint` applied to a tag. -/
def searchPodcastsPaginatedEndpoint (tag : String) : String :=
  "/api/v1/podcasts/search/" ++ tag ++ "/paginated"

/-- `healthEndpoint` of `health.go`. -/
def healthEndpoint : String := "/health"

/-- The query-string suffix the paginated searches append:
`fmt.Sprintf("%s?page=%d&limit=%d", endpoint, page, limit)`. -/
def paginationQuery (page limit : Int) : String :=
  "?page=" ++ toString page ++ "&limit=" ++ toString limit

/-- The operation wrapper shape shared by every resource operation
(article.go / podcast.go / health.go): a failure of the transport
primitive is wrapped with the operation's context string, a 200 body is
unmarshalled, and an unmarshalling failure is wrapped as
`fmt.Errorf("error unmarshalling response data: %w", err)`. -/
def wrapOp {α : Type} (ctx : String) (dec : Json → Except String α)
    (r : Except GoError Body) : Except GoError α :=
  match r with
  | .error e => .error (.wrap ctx e)
  | .ok b =>
      match unmarshal dec b with
      | .error e => .error (.wrap "error unmarshalling response data" e)
      | .ok a => .ok a

/-- `Client.CreateArticle` (typed-result variant): POSTs the marshalled
request to `/api/v1/articles` and returns the envelope's `Article` field. -/
def Client.CreateArticle (c : Client) (t : Transport) (request : CreateArticleRequest) :
    Except GoError (Option Article) :=
  (wrapOp "error creating article" decodeArticleResponse
    (c.post t createArticleEndpoint request.marshal)).map (·.article)

/-- `Client.GetArticle`. -/
def Client.GetArticle (c : Client) (t : Transport) (id : String) :
    Except GoError (Option Article) :=
  (wrapOp "error retrieving article" decodeArticleResponse
    (c.get t (getArticleEndpoint id))).map (·.article)

/-- `Client.SearchArticles`. -/
def Client.SearchArticles (c : Client) (t : Transport) (tag : String) :
    Except GoError (GoSlice Article) :=
  (wrapOp "error searching articles" decodeArticlesResponse
    (c.get t (searchArticlesEndpoint tag))).map (·.articles)

/-- `Client.SearchArticlesPaginated`: appends `?page=..&limit=..` to the
endpoint and returns `&response` (never a nil pointer on success). -/
def Client.SearchArticlesPaginated (c : Client) (t : Transport) (tag : String)
    (page limit : Int) : Except GoError PaginatedArticlesResponse :=
  wrapOp "error searching articles with pagination" decodePaginatedArticlesResponse
    (c.get t (searchArticlesPaginatedEndpoint tag ++ paginationQuery page limit))

/-- `Client.CreatePodcast` (typed-result variant). -/
def Client.CreatePodcast (c : Client) (t : Transport) (request : CreatePodcastRequest) :
    Except GoError (Option Podcast) :=
  (wrapOp "error creating podcast" decodePodcastResponse
    (c.post t createPodcastEndpoint request.marshal)).map (·.podcast)

/-- `Client.GetPodcast`. -/
def Client.GetPodcast (c : Client) (t : Transport) (id : String) :
    Except GoError (Option Podcast) :=
  (wrapOp "error retrieving podcast" decodePodcastResponse
    (c.get t (getPodcastEndpoint id))).map (·.podcast)

/-- `Client.SearchPodcasts`. -/
def Client.SearchPodcasts (c : Client) (t : Transport) (tag : String) :
    Except GoError (GoSlice Podcast) :=
  (wrapOp "error searching podcasts" decodePodcastsResponse
    (c.get t (searchPodcastsEndpoint tag))).map (·.podcasts)

/-- `Client.SearchPodcastsPaginated`. -/
def Client.SearchPodcastsPaginated (c : Client) (t : Transport) (tag : String)
    (page limit : Int) : Except GoError PaginatedPodcastsResponse :=
  wrapOp "error searching podcasts with pagination" decodePaginatedPodcastsResponse
    (c.get t (searchPodcastsPaginatedEndpoint tag ++ paginationQuery page limit))

/-- `Client.GetHealth` of `health.go`. -/
def Client.GetHealth (c : Client) (t : Transport) : Except GoError HealthResponse :=
  wrapOp "error retrieving health status" decodeHealthResponse (c.get t healthEndpoint)

/-- The legacy error-only `Client.CreateArticle` (the variant taking
`models.DataWarehouseCreateArticleRequest`): it only forwards the payload
to `post` and discards the body.  The external request type lives outside
this repository, so the payload is modelled by its JSON value, which is
all `post` observes of it. -/
def Client.CreateArticleLegacy (c : Client) (t : Transport) (request : Json) :
    Except GoError Unit :=
  match c.post t createArticleEndpoint request with
  | .error e => .error (.wrap "error creating article" e)
  | .ok _ => .ok ()

/-- With a constant transport, `post` is independent of the payload: the
request body is the only part of the request that depends on it, and the
transport ignores the request. -/
theorem Client.post_const (c : Client) (r : Except GoError HttpResponse)
    (ep : String) (d d' : Json) :
    c.post (fun _ => r) ep d = c.post (fun _ => r) ep d' := rfl

/-- C1: for every HTTP response with status code ≠ 200, both `get` and
`post` fail with the unexpected-status error carrying that status code
and the raw body text, return no body bytes (the result is `.error`, not
`.ok`), and the error's message contains the exact status code and the
exact raw body text, whether or not the body is valid JSON. -/
theorem get_post_unexpected_status (c : Client) (resp : HttpResponse)
    (endpoint : String) (data : Json) (h : resp.statusCode ≠ 200) :
    c.get (fun _ => .ok resp) endpoint
        = .error (.unexpectedStatus resp.statusCode resp.body.raw) ∧
    c.post (fun _ => .ok resp) endpoint data
        = .error (.unexpectedStatus resp.statusCode resp.body.raw) ∧
    (∃ s1 s2, (GoError.unexpectedStatus resp.statusCode resp.body.raw).message
        = s1 ++ toString resp.statusCode ++ s2) ∧
    (∃ s3, (GoError.unexpectedStatus resp.statusCode resp.body.raw).message
        = s3 ++ resp.body.raw) := by
  refine ⟨?_, ?_, ⟨"unexpected status code: ", ", body: " ++ resp.body.raw, ?_⟩,
    ⟨"unexpected status code: " ++ toString resp.statusCode ++ ", body: ", rfl⟩⟩
  · simp [Client.get, Client.handleGetResponse, h]
  · simp [Client.post, Client.handlePostResponse, h]
  · simp [GoError.message, String.append_assoc]

/-- Witness for C1 at status 404 with a non-JSON body. -/
theorem get_post_unexpected_status_witness :
    (404 : Nat) ≠ 200 ∧
    Client.get ⟨"http://h", "k"⟩ (fun _ => .ok ⟨404, .malformed "oops"⟩) "/x"
      = .error (.unexpectedStatus 404 "oops") :=
  ⟨by decide,
   (get_post_unexpected_status ⟨"http://h", "k"⟩ ⟨404, .malformed "oops"⟩ "/x"
      .null (by decide)).1⟩

/-- C2: `New` fails with the empty-configuration errors on an empty url
or api key (covering all three empty combinations) and returns no client;
on non-empty inputs it succeeds with a client holding exactly that url
and api key.  (`New` takes no transport in the model: it performs no I/O
by construction.) -/
theorem New_validation (url apiKey : String) (hu : url ≠ "") (hk : apiKey ≠ "") :
    New "" apiKey = .error (.msg "url is empty") ∧
    New url "" = .error (.msg "apiKey is empty") ∧
    New "" "" = .error (.msg "url is empty") ∧
    New url apiKey = .ok ⟨url, apiKey⟩ := by
  refine ⟨rfl, ?_, rfl, ?_⟩ <;> simp [New, hu, hk]

/-- Witness for C2 at a concrete url and api key. -/
theorem New_validation_witness :
    ("https://api.example.com" : String) ≠ "" ∧ ("key" : String) ≠ "" ∧
    New "https://api.example.com" "key" = .ok ⟨"https://api.example.com", "key"⟩ :=
  ⟨by decide, by decide,
   (New_validation "https://api.example.com" "key" (by decide) (by decide)).2.2.2⟩

/-- C3: the request `post` sends carries exactly the JSON encoding of the
payload as body, and both `get` and `post` requests carry exactly the two
headers `Content-Type: application/json` and
`Authorization: Bearer <apiKey>`; `get`/`post` factor through these
requests for every transport. -/
theorem post_sends_json_and_headers (c : Client) (t : Transport)
    (endpoint : String) (data : Json) :
    (c.postRequest endpoint data).body = some data.render ∧
    (c.postRequest endpoint data).headers
      = [("Content-Type", "application/json"),
         ("Authorization", "Bearer " ++ c.apiKey)] ∧
    (c.getRequest endpoint).headers
      = [("Content-Type", "application/json"),
         ("Authorization", "Bearer " ++ c.apiKey)] ∧
    c.post t endpoint data = Client.handlePostResponse (t (c.postRequest endpoint data)) ∧
    c.get t endpoint = Client.handleGetResponse (t (c.getRequest endpoint)) :=
  ⟨rfl, rfl, rfl, rfl, rfl⟩

/-- C4: a 200 response carrying the single-item envelope
`\x7b"article":\x7b"id":"1","title":"T","url":"https://x","tags":["a","b"]\x7d\x7d`
makes `GetArticle "1"` return, with no error, an article with id "1",
title "T" and tags ["a","b"] (the remaining fields keep their zero
values). -/
theorem getArticle_roundtrip (c : Client) :
    c.GetArticle
      (fun _ => .ok ⟨200, .wellFormed (.obj [("article", .obj
        [("id", .str "1"), ("title", .str "T"), ("url", .str "https://x"),
         ("tags", .arr [.str "a", .str "b"])])])⟩) "1"
    = .ok (some { id := "1", title := "T", description := "", url := "https://x",
                  tags := some ["a", "b"], createdAt := GoTime.zero,
                  updatedAt := GoTime.zero }) := rfl

/-- C5: a 200 response with body `\x7b"articles":[]\x7d` makes
`SearchArticles` return the empty non-nil slice (`some []`, not the nil
slice `none`) and no error, for every tag. -/
theorem searchArticles_empty_non_nil (c : Client) (tag : String) :
    c.SearchArticles (fun _ => .ok ⟨200, .wellFormed (.obj [("articles", .arr [])])⟩) tag
      = .ok (some []) ∧
    (some ([] : List Article) : GoSlice Article) ≠ none :=
  ⟨rfl, by simp⟩

/-- C6: on a 200 response whose body is not valid JSON, every resource
operation fails with the wrapped deserialization error (so never a nil
result with a nil error, and never by crashing: the result is a total
`.error` value); that error is distinct from status errors
(`unexpectedStatus`), from a raw transport error as `get` surfaces one
(`msg`), and from every operation's wrapping of a transport or status
failure (the operation-name contexts all differ from the
deserialization context); and every operation — both getters, both
searches, both paginated searches, both typed creates, the health check
and the legacy create — forwards a `get`/`post` failure unchanged except
for wrapping it with its operation-name context. -/
theorem malformed_body_and_context_propagation (c : Client) (t : Transport)
    (id pid tag : String) (areq : CreateArticleRequest) (preq : CreatePodcastRequest)
    (dL : Json) (page limit : Int) (s : String) :
    (c.GetArticle (fun _ => .ok ⟨200, .malformed s⟩) id
      = .error (.wrap "error unmarshalling response data"
          (.jsonError ("invalid character in input: " ++ s)))) ∧
    (c.GetPodcast (fun _ => .ok ⟨200, .malformed s⟩) pid
      = .error (.wrap "error unmarshalling response data"
          (.jsonError ("invalid character in input: " ++ s)))) ∧
    (c.SearchArticles (fun _ => .ok ⟨200, .malformed s⟩) tag
      = .error (.wrap "error unmarshalling response data"
          (.jsonError ("invalid character in input: " ++ s)))) ∧
    (c.SearchPodcasts (fun _ => .ok ⟨200, .malformed s⟩) tag
      = .error (.wrap "error unmarshalling response data"
          (.jsonError ("invalid character in input: " ++ s)))) ∧
    (c.SearchArticlesPaginated (fun _ => .ok ⟨200, .malformed s⟩) tag page limit
      = .error (.wrap "error unmarshalling response data"
          (.jsonError ("invalid character in input: " ++ s)))) ∧
    (c.SearchPodcastsPaginated (fun _ => .ok ⟨200, .malformed s⟩) tag page limit
      = .error (.wrap "error unmarshalling response data"
          (.jsonError ("invalid character in input: " ++ s)))) ∧
    (c.CreateArticle (fun _ => .ok ⟨200, .malformed s⟩) areq
      = .error (.wrap "error unmarshalling response data"
          (.jsonError ("invalid character in input: " ++ s)))) ∧
    (c.CreatePodcast (fun _ => .ok ⟨200, .malformed s⟩) preq
      = .error (.wrap "error unmarshalling response data"
          (.jsonError ("invalid character in input: " ++ s)))) ∧
    (c.GetHealth (fun _ => .ok ⟨200, .malformed s⟩)
      = .error (.wrap "error unmarshalling response data"
          (.jsonError ("invalid character in input: " ++ s)))) ∧
    (∀ (code : Nat) (body m : String) (e : GoError),
      (GoError.wrap "error unmarshalling response data"
          (.jsonError ("invalid character in input: " ++ s)))
        ≠ .unexpectedStatus code body ∧
      (GoError.wrap "error unmarshalling response data"
          (.jsonError ("invalid character in input: " ++ s))) ≠ .msg m ∧
      (GoError.wrap "error unmarshalling response data"
          (.jsonError ("invalid character in input: " ++ s)))
        ≠ .wrap "error retrieving article" e ∧
      (GoError.wrap "error unmarshalling response data"
          (.jsonError ("invalid character in input: " ++ s)))
        ≠ .wrap "error retrieving podcast" e ∧
      (GoError.wrap "error unmarshalling response data"
          (.jsonError ("invalid character in input: " ++ s)))
        ≠ .wrap "error searching articles" e ∧
      (GoError.wrap "error unmarshalling response data"
          (.jsonError ("invalid character in input: " ++ s)))
        ≠ .wrap "error searching podcasts" e ∧
      (GoError.wrap "error unmarshalling response data"
          (.jsonError ("invalid character in input: " ++ s)))
        ≠ .wrap "error searching articles with pagination" e ∧
      (GoError.wrap "error unmarshalling response data"
          (.jsonError ("invalid character in input: " ++ s)))
        ≠ .wrap "error searching podcasts with pagination" e ∧
      (GoError.wrap "error unmarshalling response data"
          (.jsonError ("invalid character in input: " ++ s)))
        ≠ .wrap "error creating article" e ∧
      (GoError.wrap "error unmarshalling response data"
          (.jsonError ("invalid character in input: " ++ s)))
        ≠ .wrap "error creating podcast" e ∧
      (GoError.wrap "error unmarshalling response data"
          (.jsonError ("invalid character in input: " ++ s)))
        ≠ .wrap "error retrieving health status" e) ∧
    (∀ e, c.get t (getArticleEndpoint id) = .error e →
        c.GetArticle t id = .error (.wrap "error retrieving article" e)) ∧
    (∀ e, c.get t (getPodcastEndpoint pid) = .error e →
        c.GetPodcast t pid = .error (.wrap "error retrieving podcast" e)) ∧
    (∀ e, c.get t (searchArticlesEndpoint tag) = .error e →
        c.SearchArticles t tag = .error (.wrap "error searching articles" e)) ∧
    (∀ e, c.get t (searchPodcastsEndpoint tag) = .error e →
        c.SearchPodcasts t tag = .error (.wrap "error searching podcasts" e)) ∧
    (∀ e, c.get t (searchArticlesPaginatedEndpoint tag ++ paginationQuery page limit)
          = .error e →
        c.SearchArticlesPaginated t tag page limit
          = .error (.wrap "error searching articles with pagination" e)) ∧
    (∀ e, c.get t (searchPodcastsPaginatedEndpoint tag ++ paginationQuery page limit)
          = .error e →
        c.SearchPodcastsPaginated t tag page limit
          = .error (.wrap "error searching podcasts with pagination" e)) ∧
    (∀ e, c.post t createArticleEndpoint areq.marshal = .error e →
        c.CreateArticle t areq = .error (.wrap "error creating article" e)) ∧
    (∀ e, c.post t createPodcastEndpoint preq.marshal = .error e →
        c.CreatePodcast t preq = .error (.wrap "error creating podcast" e)) ∧
    (∀ e, c.get t healthEndpoint = .error e →
        c.GetHealth t = .error (.wrap "error retrieving health status" e)) ∧
    (∀ e, c.post t createArticleEndpoint dL = .error e →
        c.CreateArticleLegacy t dL = .error (.wrap "error creating article" e)) := by
  refine ⟨rfl, rfl, rfl, rfl, rfl, rfl, rfl, rfl, rfl, ?_, ?_, ?_, ?_, ?_, ?_, ?_,
    ?_, ?_, ?_, ?_⟩
  · intro code body m e
    refine ⟨?_, ?_, ?_, ?_, ?_, ?_, ?_, ?_, ?_, ?_, ?_⟩
    · intro h
      cases h
    · intro h
      cases h
    all_goals
      intro h
      injection h with h1 h2
      exact absurd h1 (by decide)
  · intro e h
    simp only [Client.GetArticle, h, wrapOp]
    rfl
  · intro e h
    simp only [Client.GetPodcast, h, wrapOp]
    rfl
  · intro e h
    simp only [Client.SearchArticles, h, wrapOp]
    rfl
  · intro e h
    simp only [Client.SearchPodcasts, h, wrapOp]
    rfl
  · intro e h
    simp only [Client.SearchArticlesPaginated, h, wrapOp]
  · intro e h
    simp only [Client.SearchPodcastsPaginated, h, wrapOp]
  · intro e h
    simp only [Client.CreateArticle, h, wrapOp]
    rfl
  · intro e h
    simp only [Client.CreatePodcast, h, wrapOp]
    rfl
  · intro e h
    simp only [Client.GetHealth, h, wrapOp]
  · intro e h
    simp only [Client.CreateArticleLegacy, h]

/-- Witness for C6: a concrete transport failure is forwarded by
`GetArticle` wrapped with its operation context. -/
theorem malformed_body_and_context_propagation_witness :
    Client.GetArticle ⟨"u", "k"⟩ (fun _ => .error (.msg "connection refused")) "7"
      = .error (.wrap "error retrieving article" (.msg "connection refused")) :=
  (malformed_body_and_context_propagation ⟨"u", "k"⟩
      (fun _ => .error (.msg "connection refused")) "7" "9" "tech"
      ⟨"T", "", "https://x", none⟩ ⟨"T", "", "https://x", none⟩ .null 1 20
      "x").2.2.2.2.2.2.2.2.2.2.1 (.msg "connection refused") rfl

/-- C7: `SearchPodcastsPaginated tag page limit` issues, for every tag,
page and limit (no client-side validation), a GET whose path is the
search endpoint for the tag with `?page=..&limit=..` appended verbatim;
and on the 200 body with two podcasts, total 37, page 1, limit 20 the
call with ("tech", 1, 20) returns exactly those fields with no error. -/
theorem searchPodcastsPaginated_path_and_decode (c : Client) (t : Transport)
    (tag : String) (page limit : Int) :
    c.SearchPodcastsPaginated t tag page limit
      = wrapOp "error searching podcasts with pagination" decodePaginatedPodcastsResponse
          (Client.handleGetResponse (t (c.getRequest
            (searchPodcastsPaginatedEndpoint tag ++ paginationQuery page limit)))) ∧
    searchPodcastsPaginatedEndpoint tag = "/api/v1/podcasts/search/" ++ tag ++ "/paginated" ∧
    paginationQuery page limit = "?page=" ++ toString page ++ "&limit=" ++ toString limit ∧
    (c.getRequest (searchPodcastsPaginatedEndpoint tag ++ paginationQuery page limit)).url
      = c.url ++ (searchPodcastsPaginatedEndpoint tag ++ paginationQuery page limit) ∧
    (c.getRequest (searchPodcastsPaginatedEndpoint tag ++ paginationQuery page limit)).method
      = "GET" ∧
    c.SearchPodcastsPaginated
      (fun _ => .ok ⟨200, .wellFormed (.obj
        [("podcasts", .arr [.obj [("id", .str "p1"), ("title", .str "A"),
                                  ("url", .str "https://a")],
                            .obj [("id", .str "p2"), ("title", .str "B"),
                                  ("url", .str "https://b")]]),
         ("total", .num 37), ("page", .num 1), ("limit", .num 20)])⟩) "tech" 1 20
      = .ok { podcasts := some
                [⟨"p1", "A", "", "https://a", none, GoTime.zero, GoTime.zero⟩,
                 ⟨"p2", "B", "", "https://b", none, GoTime.zero, GoTime.zero⟩],
              total := 37, page := 1, limit := 20 } :=
  ⟨rfl, rfl, rfl, rfl, rfl, rfl⟩

/-- C8: `get` and `post` build the absolute URL as the plain
concatenation of base URL and path, with no percent-encoding anywhere;
`SearchArticles`/`SearchPodcasts` interpolate the tag verbatim into
`/api/v1/.../search/<tag>` for every tag string, shown also at a concrete
tag containing characters that URL encoding would escape. -/
theorem url_concatenation_no_escaping (c : Client) (endpoint tag : String)
    (d : Json) (t : Transport) :
    (c.getRequest endpoint).url = c.url ++ endpoint ∧
    (c.postRequest endpoint d).url = c.url ++ endpoint ∧
    searchArticlesEndpoint tag = "/api/v1/articles/search/" ++ tag ∧
    searchPodcastsEndpoint tag = "/api/v1/podcasts/search/" ++ tag ∧
    c.SearchArticles t tag
      = (wrapOp "error searching articles" decodeArticlesResponse
          (Client.handleGetResponse
            (t (c.getRequest ("/api/v1/articles/search/" ++ tag))))).map
          ArticlesResponse.articles ∧
    c.SearchPodcasts t tag
      = (wrapOp "error searching podcasts" decodePodcastsResponse
          (Client.handleGetResponse
            (t (c.getRequest ("/api/v1/podcasts/search/" ++ tag))))).map
          PodcastsResponse.podcasts ∧
    (Client.getRequest ⟨"http://base", "k"⟩ (searchArticlesEndpoint "a b/%?=")).url
      = "http://base/api/v1/articles/search/a b/%?=" :=
  ⟨rfl, rfl, rfl, rfl, rfl, rfl, rfl⟩

/-- C9: a 200 response with the valid JSON body `\x7b\x7d` (no envelope
key) makes `GetArticle`, `GetPodcast`, `CreateArticle` and
`CreatePodcast` return the nil entity pointer with a nil error: the
absent envelope field is not reported. -/
theorem missing_envelope_key_nil_nil (c : Client) (id pid : String)
    (areq : CreateArticleRequest) (preq : CreatePodcastRequest) :
    c.GetArticle (fun _ => .ok ⟨200, .wellFormed (.obj [])⟩) id = .ok none ∧
    c.GetPodcast (fun _ => .ok ⟨200, .wellFormed (.obj [])⟩) pid = .ok none ∧
    c.CreateArticle (fun _ => .ok ⟨200, .wellFormed (.obj [])⟩) areq = .ok none ∧
    c.CreatePodcast (fun _ => .ok ⟨200, .wellFormed (.obj [])⟩) preq = .ok none :=
  ⟨rfl, rfl, rfl, rfl⟩

/-- C10: refinement between the two coexisting `CreateArticle` variants
under any simulated response.  Whenever the legacy error-only variant
fails, the typed-result variant fails with the same error (same
"error creating article" context); the legacy variant succeeds exactly
when `post` succeeds; the typed variant succeeds only when the legacy one
does, and additionally fails on an unparseable 200 body where the legacy
variant still succeeds — its failures are a strict superset. -/
theorem createArticle_variants_refinement (c : Client)
    (r : Except GoError HttpResponse) (dL : Json) (req : CreateArticleRequest) :
    (∀ e, c.CreateArticleLegacy (fun _ => r) dL = .error e →
        c.CreateArticle (fun _ => r) req = .error e) ∧
    (c.CreateArticleLegacy (fun _ => r) dL = .ok () ↔
        ∃ b, c.post (fun _ => r) createArticleEndpoint dL = .ok b) ∧
    (∀ a, c.CreateArticle (fun _ => r) req = .ok a →
        c.CreateArticleLegacy (fun _ => r) dL = .ok ()) ∧
    (∀ e, c.CreateArticleLegacy (fun _ => r) dL = .error e →
        ∃ e0, e = .wrap "error creating article" e0) ∧
    Client.CreateArticleLegacy ⟨"u", "k"⟩
        (fun _ => .ok ⟨200, .malformed "not json"⟩) .null = .ok () ∧
    Client.CreateArticle ⟨"u", "k"⟩ (fun _ => .ok ⟨200, .malformed "not json"⟩)
        ⟨"T", "", "https://x", none⟩
      = .error (.wrap "error unmarshalling response data"
          (.jsonError ("invalid character in input: not json"))) := by
  have hpostL : c.post (fun _ => r) createArticleEndpoint dL
      = Client.handlePostResponse r := rfl
  have hpostT : c.post (fun _ => r) createArticleEndpoint req.marshal
      = Client.handlePostResponse r := rfl
  cases hr : Client.handlePostResponse r with
  | error pe =>
    have hLval : c.CreateArticleLegacy (fun _ => r) dL
        = .error (.wrap "error creating article" pe) := by
      unfold Client.CreateArticleLegacy
      rw [hpostL, hr]
    have hTval : c.CreateArticle (fun _ => r) req
        = .error (.wrap "error creating article" pe) := by
      unfold Client.CreateArticle
      rw [hpostT, hr]
      rfl
    refine ⟨?_, ?_, ?_, ?_, rfl, rfl⟩
    · intro e h
      rw [hLval] at h
      injection h with he
      rw [← he]
      exact hTval
    · rw [hLval, hpostL, hr]
      simp
    · intro a h
      rw [hTval] at h
      exact Except.noConfusion h
    · intro e h
      rw [hLval] at h
      injection h with he
      exact ⟨pe, he.symm⟩
  | ok b =>
    have hLval : c.CreateArticleLegacy (fun _ => r) dL = .ok () := by
      unfold Client.CreateArticleLegacy
      rw [hpostL, hr]
    refine ⟨?_, ?_, ?_, ?_, rfl, rfl⟩
    · intro e h
      rw [hLval] at h
      exact Except.noConfusion h
    · exact ⟨fun _ => ⟨b, by rw [hpostL, hr]⟩, fun _ => hLval⟩
    · intro a h
      exact hLval
    · intro e h
      rw [hLval] at h
      exact Except.noConfusion h

/-- Witness for C10: with a failing transport, the legacy variant's
concrete failure forces the identical failure of the typed variant. -/
theorem createArticle_variants_refinement_witness :
    Client.CreateArticle ⟨"u", "k"⟩ (fun _ => .error (.msg "down"))
        ⟨"T", "", "https://x", none⟩
      = .error (.wrap "error creating article"
          (.wrap "error sending request" (.msg "down"))) :=
  (createArticle_variants_refinement ⟨"u", "k"⟩ (.error (.msg "down")) .null
      ⟨"T", "", "https://x", none⟩).1
    (.wrap "error creating article" (.wrap "error sending request" (.msg "down"))) rfl
